import Mathlib

/-
Verification of the voice-translator repository's profile store, synthesis
queue, translation fallback and real-time loop, shallowly embedded in Lean.

Modelling conventions:
  * JavaScript numbers used in embedding arithmetic are idealized as `Option ℚ`
    where `none` stands for the IEEE NaN produced by arithmetic on `undefined`
    (an out-of-bounds array read) and `some q` is an ordinary finite value.
    Within-floating-point-tolerance claims are settled over exact rationals.
  * Cosine-similarity arithmetic (which goes through `Math.sqrt`) is idealized
    over ℝ, with `Option ℝ` results: `none` stands for the IEEE NaN produced by
    the division `0.0 / 0.0`.
  * Promise-based methods are embedded as explicit state-passing functions;
    a thrown error is an `Except.error`, backend/native calls are oracle
    function parameters.
-/

namespace VoiceTranslator

/-! ## Embedding arithmetic (VoiceCloningService.averageEmbeddings) -/

/-- JavaScript addition on the `Option ℚ` idealization: adding `undefined`
(out-of-bounds read, `none`) or NaN to anything yields NaN (`none`). -/
def jadd : Option ℚ → Option ℚ → Option ℚ
  | some a, some b => some (a + b)
  | _, _ => none

/-- Embeds `VoiceCloningService.averageEmbeddings` (src/unnamed/part_001,
lines 626-643).  The source returns `[]` for an empty input; otherwise it
allocates an accumulator of the FIRST embedding's length, adds `embedding[i]`
of every sample (an out-of-bounds read is `undefined`, poisoning the slot to
NaN), then divides each slot by the number of samples. -/
def averageEmbeddings (embeddings : List (List ℚ)) : List (Option ℚ) :=
  match embeddings with
  | [] => []
  | e0 :: _ =>
    (List.range e0.length).map (fun i =>
      (embeddings.foldl (fun acc e => jadd acc (e.get? i)) (some 0)).map
        (fun s => s / (embeddings.length : ℚ)))

/-! ## Profile store (VoiceCloningService.voiceProfiles : Map) -/

/-- The TypeScript `VoiceProfile` record as stored in
`VoiceCloningService.voiceProfiles` (fields relevant to the claims;
`characteristics`, `createdAt` and `quality` play no role in any claim). -/
structure VoiceProfileTS where
  id : String
  name : String
  audioSamples : List String
  embeddings : List (Option ℚ)
  isActive : Bool
deriving Repr, DecidableEq

/-- `Map.set` semantics of the TS `voiceProfiles` map: replace the entry with
the same id when present, otherwise append (JS `Map` preserves insertion
order). -/
def storeSet (store : List VoiceProfileTS) (p : VoiceProfileTS) : List VoiceProfileTS :=
  if store.any (fun q => q.id = p.id) then
    store.map (fun q => if q.id = p.id then p else q)
  else
    store ++ [p]

/-- Embeds `VoiceCloningService.createVoiceProfile` (src/unnamed/part_001,
lines 192-245).  `extract` is the native `extractVoiceEmbeddings` oracle
(the per-sample embedding vectors it returns) and `pid` the profile id
materialized by the native `createVoiceProfile`, which echoes the averaged
embedding back unchanged (src/unnamed/part_002, lines 482-529).  The stored
profile has `isActive := false`.  The source performs NO validation of the
sample count or of embedding lengths: the only error path is the
not-initialized guard. -/
def createVoiceProfile (isInitialized : Bool) (store : List VoiceProfileTS)
    (profileName : String) (audioSamples : List String)
    (extract : String → List ℚ) (pid : String) :
    Except String (VoiceProfileTS × List VoiceProfileTS) :=
  if isInitialized = false then
    Except.error "Voice cloning not initialized"
  else
    let rows := audioSamples.map extract
    let avg := averageEmbeddings rows
    let p : VoiceProfileTS :=
      { id := pid, name := profileName, audioSamples := audioSamples,
        embeddings := avg, isActive := false }
    Except.ok (p, storeSet store p)

/-- Embeds `VoiceCloningService.setActiveProfile` (src/unnamed/part_001, lines
491-503): FIRST deactivate every stored profile, THEN activate the one whose
id matches (if any).  The function never throws; when the id is unknown the
blanket deactivation has already happened and nothing is reactivated. -/
def setActiveProfile (store : List VoiceProfileTS) (profileId : String) :
    List VoiceProfileTS :=
  (store.map (fun p => { p with isActive := false })).map
    (fun p => if p.id = profileId then { p with isActive := true } else p)

/-- Embeds `VoiceCloningService.deleteVoiceProfile` (src/unnamed/part_001,
lines 475-489): `Map.delete` on the id. -/
def deleteVoiceProfile (store : List VoiceProfileTS) (profileId : String) :
    List VoiceProfileTS :=
  store.filter (fun p => p.id ≠ profileId)

/-- At most one stored profile is active. -/
def atMostOneActive (store : List VoiceProfileTS) : Prop :=
  store.countP (fun p => p.isActive) ≤ 1

/-- The ids of the store are pairwise distinct — structurally guaranteed by
the TS `Map` keyed on the profile id. -/
def idsNodup (store : List VoiceProfileTS) : Prop :=
  (store.map (fun p => p.id)).Nodup

/-- Projection used to state embedding claims: the embedding vector of the
profile a successful `createVoiceProfile` returns. -/
def embeddingsOf (r : Except String (VoiceProfileTS × List VoiceProfileTS)) :
    List (Option ℚ) :=
  match r with
  | Except.ok (p, _) => p.embeddings
  | Except.error _ => []

/-- `Except.ok`-ness as a Boolean, for stating that an operation succeeds. -/
def isOkB {ε α : Type} : Except ε α → Bool
  | Except.ok _ => true
  | Except.error _ => false

/-! ## Voice comparison (VoiceCloningModule.calculateCosineSimilarity,
VoiceCloningService.compareVoices) -/

/-- Dot product of two vectors, truncating at the shorter length (the Java
loop runs only when the lengths are equal, so no truncation happens there). -/
def dotList (a b : List ℝ) : ℝ :=
  ((a.zip b).map (fun p => p.1 * p.2)).sum

/-- Sum of squares of a vector (the Java `norm1`/`norm2` accumulators, i.e.
the squared Euclidean norm). -/
def sumSq (a : List ℝ) : ℝ :=
  (a.map (fun x => x * x)).sum

open Classical in
/-- Embeds `VoiceCloningModule.calculateCosineSimilarity`
(src/unnamed/part_002, lines 941-957).  Mismatched lengths return `0.0`;
otherwise the Java code computes `dot / (Math.sqrt n1 * Math.sqrt n2)` in
IEEE doubles.  When the denominator is zero the dot product is forced to be
zero as well (Cauchy-Schwarz), so the IEEE division is `0.0 / 0.0 = NaN`,
modelled as `none`; otherwise the finite real quotient is returned. -/
noncomputable def calculateCosineSimilarity (v1 v2 : List ℝ) : Option ℝ :=
  if v1.length = v2.length then
    if Real.sqrt (sumSq v1) * Real.sqrt (sumSq v2) = 0 then none
    else some (dotList v1 v2 / (Real.sqrt (sumSq v1) * Real.sqrt (sumSq v2)))
  else some 0

/-- The cosine-similarity formula exactly as the spec words it:
`dot(a,b) / (‖a‖ · ‖b‖)` with Euclidean norms.  Used only to compare the
source behaviour against the spec's formula. -/
noncomputable def specCosineSimilarity (a b : List ℝ) : ℝ :=
  dotList a b / (Real.sqrt (sumSq a) * Real.sqrt (sumSq b))

/-- Association-list lookup modelling the Java `voiceProfiles` map of the
native module (profile id to stored embedding vector). -/
def lookupProfile (store : List (String × List ℝ)) (pid : String) :
    Option (List ℝ) :=
  (store.find? (fun e => e.1 = pid)).map (fun e => e.2)

open Classical in
/-- Embeds `VoiceCloningService.compareVoices` (src/unnamed/part_001, lines
453-465) on top of the native `compareVoiceProfiles` (src/unnamed/part_002,
lines 732-754).  The TS layer returns `0` from its catch block when it is
not initialized or when the native side rejects because either profile is
missing; otherwise it passes the native cosine similarity through (`none`
models a NaN similarity reaching the caller). -/
noncomputable def compareVoices (isInitialized : Bool)
    (store : List (String × List ℝ)) (id1 id2 : String) : Option ℝ :=
  if isInitialized = false then some 0
  else
    match lookupProfile store id1, lookupProfile store id2 with
    | some e1, some e2 => calculateCosineSimilarity e1 e2
    | _, _ => some 0

/-! ## Synthesis queue (VoiceCloningService.synthesisQueue /
processSynthesisQueue / performVoiceSynthesis) -/

/-- Voice characteristics record (pitch, speed, emotion). -/
structure CharacteristicsM where
  pitch : ℚ
  speed : ℚ
  emotion : String
deriving Repr, DecidableEq

/-- The TS `VoiceSynthesisOptions`. -/
structure VoiceSynthesisOptionsM where
  language : String
  characteristics : Option CharacteristicsM
  quality : Option String
deriving Repr, DecidableEq

/-- The TS `VoiceCloneResult`. -/
structure VoiceCloneResultM where
  audioPath : String
  similarity : ℚ
  duration : ℚ
  characteristics : CharacteristicsM
deriving Repr, DecidableEq

/-- One entry of `VoiceCloningService.synthesisQueue`: text, target profile
id and synthesis options (the resolve/reject callbacks are represented by the
events of the drain trace). -/
structure SynthesisRequest where
  text : String
  profileId : String
  options : VoiceSynthesisOptionsM
deriving Repr, DecidableEq

/-- Embeds `VoiceCloningService.performVoiceSynthesis` (src/unnamed/part_001,
lines 307-345).  `synth`, `adjust` and `enhance` are the native
`synthesizeVoice`, `adjustVoiceCharacteristics` and `enhanceAudioQuality`
oracles (each may reject), `profileChars` the characteristics of the stored
profile.  The result's `similarity` is the hard-coded literal `0.95` from
line 341 — it is never computed from the audio. -/
def performVoiceSynthesis
    (synth : String → String → String → Option String → Except String (String × ℚ))
    (adjust : String → ℚ → ℚ → String → Except String String)
    (enhance : String → Except String String)
    (profileChars : String → CharacteristicsM)
    (req : SynthesisRequest) : Except String VoiceCloneResultM :=
  match synth req.text req.profileId req.options.language
      (req.options.characteristics.map (fun c => c.emotion)) with
  | Except.error e => Except.error e
  | Except.ok sr =>
    match (match req.options.characteristics with
           | some c => adjust sr.1 c.pitch c.speed c.emotion
           | none => Except.ok sr.1) with
    | Except.error e => Except.error e
    | Except.ok p1 =>
      match (if req.options.quality = some "ultra" ∨ req.options.quality = some "high"
             then enhance p1 else Except.ok p1) with
      | Except.error e => Except.error e
      | Except.ok p2 =>
        Except.ok
          { audioPath := p2, similarity := 95 / 100, duration := sr.2,
            characteristics := req.options.characteristics.getD (profileChars req.profileId) }

/-- Observable events of the queue worker: a synthesis starting, and a
request's promise being resolved or rejected. -/
inductive QueueEvent where
  | start (r : SynthesisRequest)
  | resolved (r : SynthesisRequest) (v : VoiceCloneResultM)
  | rejected (r : SynthesisRequest) (e : String)
deriving Repr, DecidableEq

/-- Embeds the `while` loop of `VoiceCloningService.processSynthesisQueue`
(src/unnamed/part_001, lines 280-305): shift the head request, run
`performVoiceSynthesis` (abstracted as `perform`), resolve on success or
reject on failure inside the per-request `try/catch`, and continue with the
rest of the queue either way.  JavaScript's single thread plus the
`isProcessing` guard (lines 281-285, reset in the `finally`) ensure exactly
one drain loop runs, so the drain is a sequential trace. -/
def drainQueue (perform : SynthesisRequest → Except String VoiceCloneResultM) :
    List SynthesisRequest → List QueueEvent
  | [] => []
  | r :: rest =>
    QueueEvent.start r ::
      (match perform r with
        | Except.ok v => QueueEvent.resolved r v
        | Except.error e => QueueEvent.rejected r e) ::
      drainQueue perform rest

/-- The guard at the top of `processSynthesisQueue`: a call while another
drain is in progress (or with an empty queue) produces no events. -/
def processSynthesisQueue
    (perform : SynthesisRequest → Except String VoiceCloneResultM)
    (isProcessing : Bool) (queue : List SynthesisRequest) : List QueueEvent :=
  if isProcessing then [] else drainQueue perform queue

/-- The completion (resolve/reject) events of a trace, in order, as
request/outcome pairs. -/
def completions : List QueueEvent → List (SynthesisRequest × Except String VoiceCloneResultM)
  | [] => []
  | QueueEvent.start _ :: t => completions t
  | QueueEvent.resolved r v :: t => (r, Except.ok v) :: completions t
  | QueueEvent.rejected r e :: t => (r, Except.error e) :: completions t

/-- Number of synthesis starts in a trace. -/
def startsCount (t : List QueueEvent) : ℕ :=
  t.countP (fun e => match e with | QueueEvent.start _ => true | _ => false)

/-- Number of completions (resolutions or rejections) in a trace. -/
def finishCount (t : List QueueEvent) : ℕ :=
  t.countP (fun e => match e with | QueueEvent.start _ => false | _ => true)

/-! ## Translation fallback (TranslationService.translateText /
translateWithGoogle) -/

/-- The TS `TranslationResult` (timestamp omitted; no claim mentions it). -/
structure TranslationResultM where
  originalText : String
  translatedText : String
  sourceLanguage : String
  targetLanguage : String
  confidence : ℚ
deriving Repr, DecidableEq

/-- The mock dictionary inside `TranslationService.translateWithGoogle`
(src/unnamed/part_002, lines 96-102), keyed on the lower-cased input. -/
def mockTranslations (s : String) : Option String :=
  if s = "hello" then some "hola"
  else if s = "goodbye" then some "adiós"
  else if s = "thank you" then some "gracias"
  else if s = "how are you" then some "cómo estás"
  else if s = "good morning" then some "buenos días"
  else none

/-- Character-wise lower-casing, modelling JavaScript's
`text.toLowerCase()` on the inputs at hand. -/
def toLowerCase (s : String) : String :=
  String.mk (s.data.map Char.toLower)

/-- Embeds `TranslationService.translateWithGoogle` (src/unnamed/part_002,
lines 88-118): mock lookup on the lower-cased text with a bracketed
placeholder fallback, stamped with the caller's language tags and the
fallback confidence `0.85`. -/
def translateWithGoogle (text src tgt : String) : TranslationResultM :=
  { originalText := text,
    translatedText := (mockTranslations (toLowerCase text)).getD
      ("[Translated: " ++ text ++ "]"),
    sourceLanguage := src, targetLanguage := tgt, confidence := 85 / 100 }

/-- The primary (OpenAI) path's hard-coded confidence from
`TranslationService.translateText` line 46. -/
def primaryDefaultConfidence : ℚ := 95 / 100

/-- Embeds `TranslationService.translateText` (src/unnamed/part_002, lines
27-54).  `primary` is the `translateWithOpenAI` oracle: `Except.error`
covers both an unready backend and a failed call (either way the `catch`
falls back to `translateWithGoogle`). -/
def translateText (primary : Except Unit String) (text src tgt : String) :
    TranslationResultM :=
  match primary with
  | Except.ok t =>
    { originalText := text, translatedText := t, sourceLanguage := src,
      targetLanguage := tgt, confidence := primaryDefaultConfidence }
  | Except.error _ => translateWithGoogle text src tgt

/-! ## Real-time cycles and temporary files
(SeamlessM4TService.processRealTimeAudio,
VoiceCloningService.processRealTimeVoiceCloning) -/

/-- Temporary chunk file name written by
`VoiceCloningService.processRealTimeVoiceCloning` (line 527). -/
def tempVoiceFile (chunkId : String) : String :=
  "temp_voice_" ++ chunkId ++ ".wav"

/-- Temporary chunk file name written by
`SeamlessM4TService.processRealTimeAudio` (src/src/types/index.ts line 390). -/
def tempAudioFile (chunkId : String) : String :=
  "temp_audio_" ++ chunkId ++ ".wav"

/-- Embeds `VoiceCloningService.processRealTimeVoiceCloning`
(src/unnamed/part_001, lines 515-567) as a transformer on the set of files in
temporary storage.  The chunk is written to `tempVoiceFile chunkId`;
`synthesis` abstracts the synthesize-or-clone step plus the base64 read of
its output (returning the cloned audio path).  On success both the temp
chunk file and the cloned audio are unlinked (lines 556-557); on ANY thrown
error the `catch` (lines 563-566) returns `null` WITHOUT unlinking, so the
temp chunk file stays behind. -/
def processRealTimeVoiceCloning (isInitialized : Bool) (files : List String)
    (chunkId : String) (synthesis : Except String String) :
    Option String × List String :=
  if isInitialized = false then (none, files)
  else
    let tmp := tempVoiceFile chunkId
    let files1 := tmp :: files
    match synthesis with
    | Except.error _ => (none, files1)
    | Except.ok clonedPath =>
      let files2 := clonedPath :: files1
      (some clonedPath, (files2.erase tmp).erase clonedPath)

/-- Embeds `SeamlessM4TService.processRealTimeAudio` (src/src/types/index.ts,
lines 382-416): write the chunk to `tempAudioFile chunkId`, run
speech-to-speech translation (`translate`, which also covers the base64 read
of its output), unlink the temp chunk file only on the success path; the
`catch` returns `null` without unlinking. -/
def processRealTimeAudio (files : List String) (chunkId : String)
    (translate : Except String String) : Option String × List String :=
  let tmp := tempAudioFile chunkId
  let files1 := tmp :: files
  match translate with
  | Except.error _ => (none, files1)
  | Except.ok outPath => (some outPath, files1.erase tmp)

/-! ## Real-time session loop (CallScreen.startTranslation) -/

/-- State of the `CallScreen` translation loop.  `capturedIsRecording` is the
value of the `isRecording` `useState` binding captured by the `setInterval`
callback when `startTranslation` ran (the closure is created once, in the
render where `isRecording` was `false`, and React state updates never mutate
that captured binding).  `isRecording` is the live React state that
`setIsRecording` updates.  `inFlight` counts capture cycles started and not
yet finished, `captureStarts` the total capture starts, `completedCycles` the
cycles that reached their `finally`. -/
structure CallLoopState where
  capturedIsRecording : Bool
  isRecording : Bool
  inFlight : ℕ
  captureStarts : ℕ
  completedCycles : ℕ
deriving Repr, DecidableEq

/-- The loop state when `startTranslation` installs the interval (CallScreen
mounts with `isRecording = false`, so the closure captures `false`). -/
def initCallLoopState : CallLoopState :=
  { capturedIsRecording := false, isRecording := false, inFlight := 0,
    captureStarts := 0, completedCycles := 0 }

/-- One cadence tick of the `setInterval` callback in
`CallScreen.startTranslation` (src/src/screens/CallScreen.tsx, lines
101-165).  The guard `if (isRecording) return` reads the closure-captured
binding, not the live state; when it passes, `setIsRecording(true)` runs and
a new capture cycle starts. -/
def tick (s : CallLoopState) : CallLoopState :=
  if s.capturedIsRecording then s
  else
    { s with
      isRecording := true
      inFlight := s.inFlight + 1
      captureStarts := s.captureStarts + 1 }

/-- Completion of a capture→translate→speak cycle: the `finally` block runs
`setIsRecording(false)`. -/
def finishCycle (s : CallLoopState) : CallLoopState :=
  { s with
    isRecording := false
    inFlight := s.inFlight - 1
    completedCycles := s.completedCycles + 1 }

/-! ## Concrete fixtures used by witnesses and counterexamples -/

/-- Extraction oracle realizing the spec's end-to-end scenario: sample "a"
has embedding `[1, 0]`, any other sample `[0, 1]`. -/
def exExtract : String → List ℚ := fun s => if s = "a" then [1, 0] else [0, 1]

/-- Extraction oracle with mismatched embedding lengths: sample "a" yields
`[1, 2]`, any other sample `[3]`. -/
def mmExtract : String → List ℚ := fun s => if s = "a" then [1, 2] else [3]

/-- A stored profile "a" that is active. -/
def profA : VoiceProfileTS := ⟨"a", "A", [], [], true⟩

/-- A stored profile "b" that is inactive. -/
def profB : VoiceProfileTS := ⟨"b", "B", [], [], false⟩

/-- Always-succeeding native synthesis oracle used by concrete witnesses. -/
def synthOk : String → String → String → Option String → Except String (String × ℚ) :=
  fun _ _ _ _ => Except.ok ("synth.wav", 1)

/-- Identity characteristics-adjustment oracle used by concrete witnesses. -/
def adjustOk : String → ℚ → ℚ → String → Except String String :=
  fun p _ _ _ => Except.ok p

/-- Identity enhancement oracle used by concrete witnesses. -/
def enhanceOk : String → Except String String := fun p => Except.ok p

/-- Profile-characteristics oracle used by concrete witnesses. -/
def profCharsEx : String → CharacteristicsM := fun _ => ⟨0, 1, "neutral"⟩

/-- A concrete synthesis request with no characteristics and no quality tier. -/
def reqEx : SynthesisRequest := ⟨"hi", "p1", ⟨"es", none, none⟩⟩

/-- The result `performVoiceSynthesis` produces for `reqEx` under the
always-succeeding oracles. -/
def resEx : VoiceCloneResultM := ⟨"synth.wav", 95 / 100, 1, ⟨0, 1, "neutral"⟩⟩

/-!
# Theorems

Helper lemmas first, then one theorem per claim (with witnesses and
counterexamples as needed).
-/

/-! ## Lemmas on JS-number folds and `averageEmbeddings` -/

lemma jadd_none_right (a : Option ℚ) : jadd a none = none := by
  cases a <;> rfl

lemma foldl_jadd_none (i : ℕ) (rows : List (List ℚ)) :
    rows.foldl (fun acc e => jadd acc (e.get? i)) none = none := by
  induction rows with
  | nil => rfl
  | cons e es ih => simpa [List.foldl_cons, jadd] using ih

lemma foldl_jadd_some (i : ℕ) (rows : List (List ℚ)) :
    ∀ a : ℚ, (∀ e ∈ rows, i < e.length) →
      rows.foldl (fun acc e => jadd acc (e.get? i)) (some a) =
        some (a + (rows.map (fun e => e.getD i 0)).sum) := by
  induction rows with
  | nil => intro a _; simp
  | cons e es ih =>
    intro a hall
    have he : i < e.length := hall e (List.mem_cons_self e es)
    have h1 : e.get? i = some (e.getD i 0) := by
      rw [List.get?_eq_getElem?, List.getD_eq_getElem?_getD,
        List.getElem?_eq_getElem he]
      rfl
    have h2 := ih (a + e.getD i 0)
      (fun x hx => hall x (List.mem_cons_of_mem e hx))
    rw [List.foldl_cons, h1]
    show List.foldl _ (some (a + e.getD i 0)) es = _
    rw [h2, List.map_cons, List.sum_cons, add_assoc]

lemma foldl_jadd_short (i : ℕ) (rows : List (List ℚ)) :
    ∀ (acc : Option ℚ) (e : List ℚ), e ∈ rows → e.length ≤ i →
      rows.foldl (fun acc e => jadd acc (e.get? i)) acc = none := by
  induction rows with
  | nil => intro acc e he _; exact absurd he (List.not_mem_nil e)
  | cons f fs ih =>
    intro acc e he hlen
    rcases List.mem_cons.mp he with rfl | hmem
    · have h1 : e.get? i = none := by
        rw [List.get?_eq_getElem?]
        exact List.getElem?_eq_none hlen
      simp only [List.foldl_cons, h1, jadd_none_right]
      exact foldl_jadd_none i fs
    · simp only [List.foldl_cons]
      exact ih _ e hmem hlen

lemma averageEmbeddings_eq_mean (rows : List (List ℚ)) (L : ℕ)
    (hne : rows ≠ []) (hlen : ∀ e ∈ rows, e.length = L) :
    averageEmbeddings rows =
      (List.range L).map (fun i =>
        some ((rows.map (fun e => e.getD i 0)).sum / (rows.length : ℚ))) := by
  match rows, hne with
  | e0 :: rest, _ =>
    have hL : e0.length = L := hlen e0 (List.mem_cons_self e0 rest)
    show (List.range e0.length).map _ = _
    rw [hL]
    apply List.map_congr_left
    intro i hi
    have hi' : i < L := List.mem_range.mp hi
    have hfold := foldl_jadd_some i (e0 :: rest) 0
      (fun e he => by rw [hlen e he]; exact hi')
    rw [hfold]
    simp

lemma averageEmbeddings_length (rows : List (List ℚ)) :
    (averageEmbeddings rows).length = (rows.headD []).length := by
  cases rows <;> simp [averageEmbeddings]

lemma averageEmbeddings_get_none (rows : List (List ℚ)) (i : ℕ) (e : List ℚ)
    (hmem : e ∈ rows) (hshort : e.length ≤ i)
    (hi : i < (rows.headD []).length) :
    (averageEmbeddings rows).get? i = some none := by
  cases rows with
  | nil => cases hmem
  | cons e0 rest =>
    have hi0 : i < e0.length := by simpa using hi
    show ((List.range e0.length).map _).get? i = some none
    rw [List.get?_eq_getElem?, List.getElem?_map, List.getElem?_range hi0,
      Option.map_some', foldl_jadd_short i (e0 :: rest) (some 0) e hmem hshort]
    rfl

/-! ## Lemmas on the profile store -/

lemma atMostOneActive_storeSet (store : List VoiceProfileTS)
    (p : VoiceProfileTS) (hp : p.isActive = false)
    (h : atMostOneActive store) : atMostOneActive (storeSet store p) := by
  unfold atMostOneActive storeSet at *
  split
  · rw [List.countP_map]
    refine le_trans (List.countP_mono_left ?_) h
    intro q hq hact
    by_cases hid : q.id = p.id
    · rw [Function.comp_apply, if_pos hid] at hact
      rw [hp] at hact
      cases hact
    · rwa [Function.comp_apply, if_neg hid] at hact
  · rw [List.countP_append]
    have : List.countP (fun p => p.isActive) [p] = 0 := by simp [hp]
    omega

lemma countP_active_setActive (store : List VoiceProfileTS) (pid : String) :
    (setActiveProfile store pid).countP (fun p => p.isActive) =
      store.countP (fun p => decide (p.id = pid)) := by
  unfold setActiveProfile
  rw [List.map_map, List.countP_map]
  apply List.countP_congr
  intro q _
  by_cases hid : q.id = pid <;>
    simp [Function.comp, hid]

lemma countP_id_le_one (store : List VoiceProfileTS) (pid : String)
    (h : idsNodup store) :
    store.countP (fun p => decide (p.id = pid)) ≤ 1 := by
  induction store with
  | nil => simp
  | cons p ps ih =>
    have h' : p.id ∉ ps.map (fun q => q.id) ∧ idsNodup ps := by
      simpa [idsNodup, List.nodup_cons] using h
    rw [List.countP_cons]
    by_cases hid : p.id = pid
    · have h0 : ps.countP (fun q => decide (q.id = pid)) = 0 := by
        rw [List.countP_eq_zero]
        intro q hq
        simp only [decide_eq_true_eq]
        intro hq2
        exact h'.1 (by rw [hid, ← hq2]; exact List.mem_map_of_mem _ hq)
      simp [h0, hid]
    · simp only [hid, decide_False]
      simpa using ih h'.2

/-! ## Lemmas on the synthesis queue -/

lemma performVoiceSynthesis_ok_similarity
    (synth : String → String → String → Option String → Except String (String × ℚ))
    (adjust : String → ℚ → ℚ → String → Except String String)
    (enhance : String → Except String String)
    (profileChars : String → CharacteristicsM)
    (req : SynthesisRequest) (r : VoiceCloneResultM)
    (h : performVoiceSynthesis synth adjust enhance profileChars req = Except.ok r) :
    r.similarity = 95 / 100 := by
  unfold performVoiceSynthesis at h
  repeat' split at h
  all_goals first
    | exact Except.noConfusion h
    | (cases h; rfl)

lemma completions_drainQueue
    (perform : SynthesisRequest → Except String VoiceCloneResultM)
    (rs : List SynthesisRequest) :
    completions (drainQueue perform rs) = rs.map (fun r => (r, perform r)) := by
  induction rs with
  | nil => rfl
  | cons r rest ih =>
    rcases h : perform r with e | v <;>
      simp [drainQueue, completions, h, ih]

lemma drain_take_bound
    (perform : SynthesisRequest → Except String VoiceCloneResultM)
    (rs : List SynthesisRequest) :
    ∀ n : ℕ, startsCount ((drainQueue perform rs).take n) ≤
      finishCount ((drainQueue perform rs).take n) + 1 := by
  induction rs with
  | nil => intro n; simp [drainQueue, startsCount, finishCount]
  | cons r rest ih =>
    intro n
    match n with
    | 0 => simp [startsCount, finishCount]
    | 1 =>
      rcases h : perform r with e | v <;>
        simp [drainQueue, startsCount, finishCount, h, List.countP_cons]
    | Nat.succ (Nat.succ k) =>
      have hk := ih k
      rcases h : perform r with e | v <;>
        · simp only [drainQueue, h, List.take_succ_cons, startsCount,
            finishCount, List.countP_cons] at *
          omega

/-! ## Claim theorems -/

/-- Claim C1 (confirmed): draining the synthesis queue resolves or rejects
the requests as exactly one completion each, in submission (FIFO) order, a
rejection never prevents a later request's completion (the completion list
is the full submission list with each request's own outcome), every
trace prefix has at most one synthesis in flight (starts exceed finishes by
at most one), and the `isProcessing` guard makes a reentrant call produce no
events while the single drain processes the whole queue. -/
theorem synthesisQueue_fifo_and_isolation :
    (∀ (perform : SynthesisRequest → Except String VoiceCloneResultM)
      (rs : List SynthesisRequest),
      completions (drainQueue perform rs) = rs.map (fun r => (r, perform r)))
    ∧ (∀ (perform : SynthesisRequest → Except String VoiceCloneResultM)
      (rs : List SynthesisRequest) (n : ℕ),
      startsCount ((drainQueue perform rs).take n) ≤
        finishCount ((drainQueue perform rs).take n) + 1)
    ∧ (∀ (perform : SynthesisRequest → Except String VoiceCloneResultM)
      (queue : List SynthesisRequest),
      processSynthesisQueue perform true queue = []
      ∧ processSynthesisQueue perform false queue = drainQueue perform queue) :=
  ⟨completions_drainQueue,
   fun perform rs n => drain_take_bound perform rs n,
   fun _ _ => ⟨rfl, rfl⟩⟩

/-- Claim C5 (code bug): evaluation of the real-time cycle models at a
failing input.  When the synthesis/translation step fails after the chunk
was written, the `catch` path returns `null` without unlinking, so the
temporary chunk file survives the cycle — while on the success path it is
removed.  The spec requires deletion on both paths. -/
theorem tempFile_survives_failed_cycle :
    (processRealTimeVoiceCloning true [] "c1" (Except.error "synthesis failed")).2 =
      [tempVoiceFile "c1"]
    ∧ (processRealTimeVoiceCloning true [] "c1" (Except.ok "cloned.wav")).2 = []
    ∧ (processRealTimeAudio [] "c1" (Except.error "translation failed")).2 =
      [tempAudioFile "c1"]
    ∧ (processRealTimeAudio [] "c1" (Except.ok "out.wav")).2 = [] := by
  refine ⟨rfl, ?_, rfl, ?_⟩ <;> decide

/-- Claim C6 (code bug): evaluation of the session-loop model at a failing
input.  The `setInterval` callback's guard reads the closure-captured
`isRecording` (always `false`), so after two cadence ticks with the first
cycle still in flight the loop has started two concurrent captures and
completed no cycle — a tick does start a second concurrent capture, and the
capture-start counter increments twice per zero completed cycles. -/
theorem reentry_guard_ineffective :
    (tick initCallLoopState).isRecording = true
    ∧ (tick initCallLoopState).inFlight = 1
    ∧ (tick (tick initCallLoopState)).captureStarts = 2
    ∧ (tick (tick initCallLoopState)).inFlight = 2
    ∧ (tick (tick initCallLoopState)).completedCycles = 0 := by decide

/-- Claim C7 (confirmed): when the primary (OpenAI) backend is unready or
fails, the fallback result carries the caller-requested source and target
language tags and the fallback's translated text, and its confidence `0.85`
is strictly below the primary default `0.95`; in the concrete scenario
(source `en`, target `es`, text "hello") the fallback yields "hola" with
exactly those tags. -/
theorem translateText_fallback_normalization :
    (∀ (e : Unit) (text src tgt : String),
      (translateText (Except.error e) text src tgt).translatedText =
        (translateWithGoogle text src tgt).translatedText
      ∧ (translateText (Except.error e) text src tgt).sourceLanguage = src
      ∧ (translateText (Except.error e) text src tgt).targetLanguage = tgt
      ∧ (translateText (Except.error e) text src tgt).confidence <
          primaryDefaultConfidence)
    ∧ translateText (Except.error ()) "hello" "en" "es" =
        { originalText := "hello", translatedText := "hola",
          sourceLanguage := "en", targetLanguage := "es",
          confidence := 85 / 100 }
    ∧ (85 : ℚ) / 100 < primaryDefaultConfidence := by
  refine ⟨?_, ?_, ?_⟩
  · intro e text src tgt
    refine ⟨rfl, rfl, rfl, ?_⟩
    show (85 : ℚ) / 100 < primaryDefaultConfidence
    norm_num [primaryDefaultConfidence]
  · have h1 : toLowerCase "hello" = "hello" := by decide
    show translateWithGoogle "hello" "en" "es" = _
    unfold translateWithGoogle
    rw [h1]
    rfl
  · norm_num [primaryDefaultConfidence]

/-- Claim C8, counterexample: `createVoiceProfile` does NOT fail on
mismatched embedding lengths (samples with embeddings `[1,2]` and `[3]`
produce a stored profile whose averaged embedding is `[2, NaN]`), and does
NOT require at least one sample (an empty sample list produces a profile
with an empty embedding); no `MalformedEmbedding` error exists in the
source. -/
theorem createVoiceProfile_accepts_malformed :
    createVoiceProfile true [] "p" ["a", "b"] mmExtract "id1" =
      Except.ok (⟨"id1", "p", ["a", "b"], [some 2, none], false⟩,
        [⟨"id1", "p", ["a", "b"], [some 2, none], false⟩])
    ∧ createVoiceProfile true [] "p" [] mmExtract "id0" =
      Except.ok (⟨"id0", "p", [], [], false⟩, [⟨"id0", "p", [], [], false⟩]) := by
  constructor
  · have hb : ("b" : String) ≠ "a" := by decide
    norm_num [createVoiceProfile, mmExtract, averageEmbeddings, jadd,
      List.range_succ, storeSet, hb]
  · rfl

/-- Claim C9, counterexample: calling `setActiveProfile` with an unknown id
is NOT a state-preserving no-op: with profile "a" active and "b" inactive,
`setActiveProfile` on the unknown id "zzz" changes the store and leaves no
profile active (the previously active "a" has been deactivated), and no
error is raised (the model is a total function). -/
theorem setActiveProfile_unknown_not_noop :
    setActiveProfile [profA, profB] "zzz" ≠ [profA, profB]
    ∧ profA.isActive = true
    ∧ (setActiveProfile [profA, profB] "zzz").countP (fun p => p.isActive) = 0 := by
  decide

/-- Claim C9, amended: `setActiveProfile` with an id no stored profile
carries raises no error and deactivates every stored profile — a previously
active profile does NOT stay active. -/
theorem setActiveProfile_unknown_deactivates_all
    (store : List VoiceProfileTS) (pid : String)
    (hunk : ∀ q ∈ store, q.id ≠ pid) :
    ∀ r ∈ setActiveProfile store pid, r.isActive = false := by
  intro r hr
  unfold setActiveProfile at hr
  rw [List.map_map] at hr
  rcases List.mem_map.mp hr with ⟨q, hq, hfq⟩
  rw [← hfq]
  simp only [Function.comp_apply]
  rw [if_neg (show ¬({ q with isActive := false } : VoiceProfileTS).id = pid
    from hunk q hq)]

/-- Witness for the amended C9 theorem at a concrete store. -/
theorem setActiveProfile_unknown_deactivates_all_witness :
    (⟨"a", "A", [], [], false⟩ : VoiceProfileTS).isActive = false :=
  setActiveProfile_unknown_deactivates_all [profA, profB] "zzz" (by decide)
    ⟨"a", "A", [], [], false⟩ (by decide)

/-- Claim C10 (confirmed): every request the queue worker resolves through
`performVoiceSynthesis` carries the constant similarity score `0.95`,
independent of the text, profile, options and backend outputs — the score is
never computed from the audio. -/
theorem performVoiceSynthesis_constant_similarity
    (synth : String → String → String → Option String → Except String (String × ℚ))
    (adjust : String → ℚ → ℚ → String → Except String String)
    (enhance : String → Except String String)
    (profileChars : String → CharacteristicsM)
    (rs : List SynthesisRequest) (r : SynthesisRequest) (v : VoiceCloneResultM)
    (hmem : QueueEvent.resolved r v ∈
      drainQueue (performVoiceSynthesis synth adjust enhance profileChars) rs) :
    v.similarity = 95 / 100 := by
  induction rs with
  | nil => cases hmem
  | cons q qs ih =>
    rcases List.mem_cons.mp hmem with h1 | hmem2
    · cases h1
    · rcases List.mem_cons.mp hmem2 with h2 | h3
      · rcases hq : performVoiceSynthesis synth adjust enhance profileChars q with e | w
        · rw [hq] at h2
          cases h2
        · rw [hq] at h2
          injection h2 with hr hv
          rw [hv]
          exact performVoiceSynthesis_ok_similarity synth adjust enhance
            profileChars q w hq
      · exact ih h3

/-- Witness for C10 at a concrete queue and concrete oracles. -/
theorem performVoiceSynthesis_constant_similarity_witness :
    resEx.similarity = 95 / 100 :=
  performVoiceSynthesis_constant_similarity synthOk adjustOk enhanceOk
    profCharsEx [reqEx] reqEx resEx
    (by
      have hd : drainQueue
          (performVoiceSynthesis synthOk adjustOk enhanceOk profCharsEx) [reqEx] =
          [QueueEvent.start reqEx, QueueEvent.resolved reqEx resEx] := rfl
      rw [hd]
      exact List.mem_cons_of_mem _ (List.mem_cons_self _ _))

/-- Claim C2 (confirmed): for a profile created from `N ≥ 1` samples whose
extracted embeddings all share length `L`, the stored embedding is the
element-wise arithmetic mean of the per-sample embeddings: entry `i` is
`(sum of the samples' i-th entries) / N`. -/
theorem createVoiceProfile_embeddings_mean
    (store : List VoiceProfileTS) (name : String) (samples : List String)
    (extract : String → List ℚ) (pid : String) (L : ℕ)
    (hne : samples ≠ [])
    (hlen : ∀ s ∈ samples, (extract s).length = L) :
    embeddingsOf (createVoiceProfile true store name samples extract pid) =
      (List.range L).map (fun i =>
        some (((samples.map extract).map (fun e => e.getD i 0)).sum /
          (samples.length : ℚ))) := by
  have hrows : samples.map extract ≠ [] := by
    simpa using hne
  have hlens : ∀ e ∈ samples.map extract, e.length = L := by
    intro e he
    rcases List.mem_map.mp he with ⟨s, hs, rfl⟩
    exact hlen s hs
  show averageEmbeddings (samples.map extract) = _
  rw [averageEmbeddings_eq_mean (samples.map extract) L hrows hlens,
    List.length_map]

/-- Witness for C2: the spec's end-to-end scenario — two samples with
embeddings `[1,0]` and `[0,1]` produce the stored embedding `[0.5, 0.5]`. -/
theorem createVoiceProfile_embeddings_mean_witness :
    embeddingsOf (createVoiceProfile true [] "user" ["a", "b"] exExtract "idm") =
      [some (1 / 2), some (1 / 2)] := by
  rw [createVoiceProfile_embeddings_mean [] "user" ["a", "b"] exExtract "idm" 2
    (by decide) (by decide)]
  have hb : ("b" : String) ≠ "a" := by decide
  norm_num [List.range_succ, exExtract, hb]

/-- Claim C8, amended: `createVoiceProfile` validates nothing when the
service is initialized — it always succeeds, the averaged embedding has the
FIRST extracted embedding's length, and every position that lies beyond the
end of some shorter sample embedding is NaN (`none`) rather than an error. -/
theorem createVoiceProfile_no_validation
    (store : List VoiceProfileTS) (name : String) (samples : List String)
    (extract : String → List ℚ) (pid : String) :
    isOkB (createVoiceProfile true store name samples extract pid) = true
    ∧ (embeddingsOf (createVoiceProfile true store name samples extract pid)).length =
        ((samples.map extract).headD []).length
    ∧ (∀ (i : ℕ) (e : List ℚ), e ∈ samples.map extract → e.length ≤ i →
        i < ((samples.map extract).headD []).length →
        (embeddingsOf (createVoiceProfile true store name samples extract pid)).get? i =
          some none) := by
  refine ⟨rfl, ?_, ?_⟩
  · show (averageEmbeddings (samples.map extract)).length = _
    exact averageEmbeddings_length (samples.map extract)
  · intro i e hmem hshort hi
    show (averageEmbeddings (samples.map extract)).get? i = some none
    exact averageEmbeddings_get_none (samples.map extract) i e hmem hshort hi

/-- Witness for the amended C8 theorem: mismatched embedding lengths
(`[1,2]` and `[3]`) still succeed and poison position 1 to NaN. -/
theorem createVoiceProfile_no_validation_witness :
    isOkB (createVoiceProfile true [] "p" ["a", "b"] mmExtract "idw") = true
    ∧ (embeddingsOf (createVoiceProfile true [] "p" ["a", "b"] mmExtract "idw")).get? 1 =
      some none := by
  refine ⟨(createVoiceProfile_no_validation [] "p" ["a", "b"] mmExtract "idw").1, ?_⟩
  refine (createVoiceProfile_no_validation [] "p" ["a", "b"] mmExtract "idw").2.2
    1 [3] ?_ ?_ ?_
  · have hb : ("b" : String) ≠ "a" := by decide
    simp [mmExtract, hb]
  · decide
  · decide

/-- Claim C3 (confirmed): "at most one stored profile is active" holds for
the initial empty store and is preserved by `createVoiceProfile` (which
stores an inactive profile), by `setActiveProfile` (given the `Map`'s
structural id-uniqueness) and by `deleteVoiceProfile`; moreover after
`setActiveProfile store pid` a profile is active exactly when its id is
`pid` — every other profile has been deactivated first. -/
theorem activeProfile_invariant :
    atMostOneActive ([] : List VoiceProfileTS)
    ∧ (∀ (isInit : Bool) (store : List VoiceProfileTS) (name : String)
        (samples : List String) (extract : String → List ℚ) (pid : String)
        (p : VoiceProfileTS) (store' : List VoiceProfileTS),
        atMostOneActive store →
        createVoiceProfile isInit store name samples extract pid =
          Except.ok (p, store') →
        atMostOneActive store')
    ∧ (∀ (store : List VoiceProfileTS) (pid : String),
        idsNodup store → atMostOneActive (setActiveProfile store pid))
    ∧ (∀ (store : List VoiceProfileTS) (pid : String),
        atMostOneActive store → atMostOneActive (deleteVoiceProfile store pid))
    ∧ (∀ (store : List VoiceProfileTS) (pid : String) (r : VoiceProfileTS),
        r ∈ setActiveProfile store pid → (r.isActive = true ↔ r.id = pid)) := by
  refine ⟨?_, ?_, ?_, ?_, ?_⟩
  · show List.countP _ [] ≤ 1
    simp
  · intro isInit store name samples extract pid p store' hstore heq
    cases isInit with
    | false => exact absurd heq (by simp [createVoiceProfile])
    | true =>
      simp only [createVoiceProfile, Bool.true_eq_false, if_false,
        Except.ok.injEq, Prod.mk.injEq] at heq
      rw [← heq.2]
      exact atMostOneActive_storeSet store _ rfl hstore
  · intro store pid hnd
    show List.countP _ _ ≤ 1
    rw [countP_active_setActive store pid]
    exact countP_id_le_one store pid hnd
  · intro store pid h
    exact le_trans ((List.filter_sublist store).countP_le _) h
  · intro store pid r hr
    unfold setActiveProfile at hr
    rw [List.map_map] at hr
    rcases List.mem_map.mp hr with ⟨q, _, hfq⟩
    by_cases hid : q.id = pid
    · rw [← hfq]
      simp only [Function.comp_apply]
      rw [if_pos (show ({ q with isActive := false } : VoiceProfileTS).id = pid
        from hid)]
      constructor
      · intro _
        exact hid
      · intro _
        rfl
    · rw [← hfq]
      simp only [Function.comp_apply]
      rw [if_neg (show ¬({ q with isActive := false } : VoiceProfileTS).id = pid
        from hid)]
      constructor
      · intro hfalse
        cases hfalse
      · intro hpid
        exact absurd hpid hid

/-- Witness for C3 at concrete stores: the invariant survives a sequence of
concrete operations, and a `createVoiceProfile` on a store with one active
profile keeps at most one profile active. -/
theorem activeProfile_invariant_witness :
    atMostOneActive (setActiveProfile [profA, profB] "b")
    ∧ atMostOneActive (deleteVoiceProfile [profA, profB] "a")
    ∧ atMostOneActive [profA, (⟨"c", "n", [], [], false⟩ : VoiceProfileTS)]
    ∧ ((⟨"b", "B", [], [], true⟩ : VoiceProfileTS).isActive = true ↔
        (⟨"b", "B", [], [], true⟩ : VoiceProfileTS).id = "b") := by
  refine ⟨activeProfile_invariant.2.2.1 [profA, profB] "b"
      (by unfold idsNodup; decide),
    activeProfile_invariant.2.2.2.1 [profA, profB] "a"
      (by unfold atMostOneActive; decide),
    activeProfile_invariant.2.1 true [profA] "n" [] mmExtract "c"
      ⟨"c", "n", [], [], false⟩ [profA, ⟨"c", "n", [], [], false⟩]
      (by unfold atMostOneActive; decide) rfl,
    activeProfile_invariant.2.2.2.2 [profA, ⟨"b", "B", [], [], true⟩] "b"
      ⟨"b", "B", [], [], true⟩ ?_⟩
  decide

/-! ## Lemmas on cosine similarity -/

lemma sumSq_nonneg (a : List ℝ) : 0 ≤ sumSq a := by
  apply List.sum_nonneg
  intro x hx
  rcases List.mem_map.mp hx with ⟨y, _, rfl⟩
  exact mul_self_nonneg y

lemma dotList_self (a : List ℝ) : dotList a a = sumSq a := by
  induction a with
  | nil => rfl
  | cons x xs ih =>
    simp only [dotList, sumSq, List.zip_cons_cons, List.map_cons,
      List.sum_cons] at *
    rw [ih]

lemma compareVoices_eq_calc (store : List (String × List ℝ))
    (id1 id2 : String) (e1 e2 : List ℝ)
    (h1 : lookupProfile store id1 = some e1)
    (h2 : lookupProfile store id2 = some e2) :
    compareVoices true store id1 id2 = calculateCosineSimilarity e1 e2 := by
  show (match lookupProfile store id1, lookupProfile store id2 with
    | some e1, some e2 => calculateCosineSimilarity e1 e2
    | _, _ => some 0) = _
  rw [h1, h2]

lemma compareVoices_missing (store : List (String × List ℝ)) (id1 id2 : String)
    (h : lookupProfile store id1 = none ∨ lookupProfile store id2 = none) :
    compareVoices true store id1 id2 = some 0 := by
  show (match lookupProfile store id1, lookupProfile store id2 with
    | some e1, some e2 => calculateCosineSimilarity e1 e2
    | _, _ => some 0) = some 0
  rcases h with h | h
  · rw [h]
  · cases hx : lookupProfile store id1 with
    | none => rw [h]
    | some e1 => rw [h]

/-- Claim C4, counterexample: the claim fails on the code in three ways.
Comparing the non-empty zero profile `[0]` to itself yields NaN (`none`),
not `1.0`; comparing two profiles with empty vectors yields NaN, not `0`;
and for profiles with embeddings of different lengths the code returns `0`
while the spec's cosine formula gives the non-zero `1/√2`. -/
theorem compareVoices_claim_counterexample :
    compareVoices true [("z", [(0:ℝ)])] "z" "z" ≠ some 1
    ∧ compareVoices true [("e", ([] : List ℝ)), ("f", [])] "e" "f" = none
    ∧ compareVoices true [("a", [(1:ℝ)]), ("b", [1, 1])] "a" "b" = some 0
    ∧ specCosineSimilarity [(1:ℝ)] [1, 1] ≠ 0 := by
  refine ⟨?_, ?_, ?_, ?_⟩
  · rw [compareVoices_eq_calc [("z", [(0:ℝ)])] "z" "z" [0] [0] rfl rfl]
    have hz : calculateCosineSimilarity [(0:ℝ)] [0] = none := by
      unfold calculateCosineSimilarity
      rw [if_pos rfl, if_pos]
      have h0 : sumSq [(0:ℝ)] = 0 := by simp [sumSq]
      rw [h0, Real.sqrt_zero, mul_zero]
    rw [hz]
    simp
  · rw [compareVoices_eq_calc [("e", ([] : List ℝ)), ("f", [])] "e" "f" [] [] rfl rfl]
    unfold calculateCosineSimilarity
    rw [if_pos rfl, if_pos]
    have h0 : sumSq ([] : List ℝ) = 0 := rfl
    rw [h0, Real.sqrt_zero, mul_zero]
  · rw [compareVoices_eq_calc [("a", [(1:ℝ)]), ("b", [1, 1])] "a" "b" [1] [1, 1] rfl rfl]
    unfold calculateCosineSimilarity
    rw [if_neg (by norm_num)]
  · unfold specCosineSimilarity
    have hdot : dotList [(1:ℝ)] [1, 1] = 1 := by simp [dotList]
    have h1 : sumSq [(1:ℝ)] = 1 := by norm_num [sumSq]
    have h2 : sumSq [(1:ℝ), 1] = 2 := by norm_num [sumSq]
    rw [hdot, h1, h2, Real.sqrt_one, one_mul]
    intro h
    rcases div_eq_zero_iff.mp h with h | h
    · exact one_ne_zero h
    · exact (Real.sqrt_ne_zero'.mpr (by norm_num)) h

/-- Claim C4, amended: when both profiles exist and their embeddings have
equal length and a non-zero norm product, `compareVoices` returns the spec's
cosine `dot(a,b)/(‖a‖·‖b‖)`; when either profile is missing it returns `0`
and never throws; and self-comparison returns exactly `1.0` whenever the
profile's embedding has non-zero norm (for a zero or empty embedding the
IEEE result is NaN instead). -/
theorem compareVoices_cosine_amended :
    (∀ (store : List (String × List ℝ)) (id1 id2 : String) (e1 e2 : List ℝ),
      lookupProfile store id1 = some e1 → lookupProfile store id2 = some e2 →
      e1.length = e2.length →
      Real.sqrt (sumSq e1) * Real.sqrt (sumSq e2) ≠ 0 →
      compareVoices true store id1 id2 = some (specCosineSimilarity e1 e2))
    ∧ (∀ (store : List (String × List ℝ)) (id1 id2 : String),
      lookupProfile store id1 = none ∨ lookupProfile store id2 = none →
      compareVoices true store id1 id2 = some 0)
    ∧ (∀ (store : List (String × List ℝ)) (pid : String) (e : List ℝ),
      lookupProfile store pid = some e → sumSq e ≠ 0 →
      compareVoices true store pid pid = some 1) := by
  refine ⟨?_, compareVoices_missing, ?_⟩
  · intro store id1 id2 e1 e2 h1 h2 hlen hden
    rw [compareVoices_eq_calc store id1 id2 e1 e2 h1 h2]
    unfold calculateCosineSimilarity specCosineSimilarity
    rw [if_pos hlen, if_neg hden]
  · intro store pid e h hs
    rw [compareVoices_eq_calc store pid pid e e h h]
    unfold calculateCosineSimilarity
    have hd : Real.sqrt (sumSq e) * Real.sqrt (sumSq e) = sumSq e :=
      Real.mul_self_sqrt (sumSq_nonneg e)
    rw [if_pos rfl, if_neg (by rw [hd]; exact hs), dotList_self, hd,
      div_self hs]

/-- Witness for the amended C4 theorem: a concrete profile with unit
embedding compares to itself as `1.0`, and a missing profile compares as
`0`. -/
theorem compareVoices_cosine_amended_witness :
    compareVoices true [("x", [(1:ℝ)])] "x" "x" = some 1
    ∧ compareVoices true [] "x" "y" = some 0 :=
  ⟨compareVoices_cosine_amended.2.2 [("x", [1])] "x" [1] rfl
    (by norm_num [sumSq]),
   compareVoices_cosine_amended.2.1 [] "x" "y" (Or.inl rfl)⟩

end VoiceTranslator
